import Mathlib

/-
Verification development for the ShortPlayGenerator task-lifecycle subsystem.

The definitions below are shallow embeddings of the Python source:
  * the durable queue log (services.py: _persist_append / _persist_remove /
    _persist_load and the module-startup re-enqueue loop),
  * the generation worker loop (services.py: _video_gen_worker),
  * shell-argument escaping and command building
    (services.py: _escape_shell_arg / _build_command_safe),
  * exit-code classification (services.py: _get_exit_code_desc),
  * result-artifact checks and the local synchronous runner
    (services.py: _get_result_dir / _check_mp4_exists_* / _run_local_sync),
  * the merge pipeline (merge_service.py: _download_file loop,
    repair loop, concat, COS upload retry, URL log, notification),
  * asset-locator resolution (serializers.py: _resolve_asset_url).

File contents, JSON records and side effects are modelled explicitly:
a durable-log line is either a parsed record, a line that fails JSON
decoding, or a JSON line lacking the task_id key; filesystem existence,
download success, repair success and upload success are boolean oracles;
effects (failure records, notifications, URL-log appends) are collected
in result structures.
-/

namespace ShortPlay

/-! ## Durable log (services.py lines 36-84) -/

/-- One line of the durable queue file `video_gen_queue.jsonl`.
`rec tid kw` is a line that parses as JSON with a `task_id` key
(what `_persist_append` writes); `badJson raw` is a line on which
`json.loads` raises `JSONDecodeError`; `jsonNoTid raw` is valid JSON
without a `task_id` key (so `obj.get` yields `None` and `obj[...]`
raises `KeyError`). -/
inductive LogLine (K : Type) where
  | record (tid : String) (kw : K)
  | badJson (raw : String)
  | jsonNoTid (raw : String)
deriving DecidableEq

/-- Embedding of `_persist_append`: append one record line at the end
of the file. -/
def persist_append {K : Type} (log : List (LogLine K)) (tid : String) (kw : K) :
    List (LogLine K) :=
  log ++ [LogLine.record tid kw]

/-- Embedding of `_persist_remove`: the file is rewritten keeping, in
order, each line that parses to JSON whose `task_id` differs from the
removed id.  A line raising `JSONDecodeError` is skipped (`continue`)
and therefore dropped from the rewritten file; a valid-JSON line
without `task_id` yields `obj.get = None`, which differs from the
string id, so it is kept. -/
def persist_remove {K : Type} (tid : String) (log : List (LogLine K)) :
    List (LogLine K) :=
  log.filter fun line =>
    match line with
    | LogLine.record t _ => t != tid
    | LogLine.badJson _ => false
    | LogLine.jsonNoTid _ => true

/-- Embedding of `_persist_load`: return the `(task_id, kwargs)` pairs
of the lines that parse, skipping lines that raise `JSONDecodeError`
or `KeyError`. -/
def persist_load {K : Type} (log : List (LogLine K)) : List (String × K) :=
  log.filterMap fun line =>
    match line with
    | LogLine.record t k => some (t, k)
    | LogLine.badJson _ => none
    | LogLine.jsonNoTid _ => none

/-- Embedding of the module-startup loop
`for tid, kw in _persist_load(): _video_gen_queue.put((tid, kw))`:
the in-memory queue built at process start, one put per loaded record,
in loaded order. -/
def startup_queue {K : Type} (log : List (LogLine K)) : List (String × K) :=
  (persist_load log).foldl (fun q p => q ++ [p]) []

/-! ## Log operation sequences (claim C2) -/

/-- A durable-log operation: either `_persist_append` (done by
`create_video`) or `_persist_remove` (done by the worker). -/
inductive Op (K : Type) where
  | append (tid : String) (kw : K)
  | remove (tid : String)

/-- Apply one operation to the log file. -/
def apply_op {K : Type} (log : List (LogLine K)) : Op K → List (LogLine K)
  | Op.append tid kw => persist_append log tid kw
  | Op.remove tid => persist_remove tid log

/-- Run a sequence of operations starting from the empty log. -/
def run_ops {K : Type} (ops : List (Op K)) : List (LogLine K) :=
  ops.foldl apply_op []

/-- Specification-side account of the claim's words: the records
appended and not subsequently removed, in append order. -/
def pending_spec_step {K : Type} (acc : List (String × K)) : Op K → List (String × K)
  | Op.append tid kw => acc ++ [(tid, kw)]
  | Op.remove tid => acc.filter fun p => p.1 != tid

/-- Records appended and not subsequently removed, in append order,
written directly from the claim's words. -/
def pending_spec {K : Type} (ops : List (Op K)) : List (String × K) :=
  ops.foldl pending_spec_step []

/-- A list of pure record lines, one per pending pair. -/
def rec_lines {K : Type} (l : List (String × K)) : List (LogLine K) :=
  l.map fun p => LogLine.record p.1 p.2

lemma persist_load_rec_lines {K : Type} (l : List (String × K)) :
    persist_load (rec_lines l) = l := by
  induction l with
  | nil => rfl
  | cons p t ih =>
    simp only [rec_lines, List.map_cons, persist_load, List.filterMap_cons] at *
    simpa [rec_lines, persist_load] using ih

lemma persist_remove_rec_lines {K : Type} (tid : String) (l : List (String × K)) :
    persist_remove tid (rec_lines l) = rec_lines (l.filter fun p => p.1 != tid) := by
  induction l with
  | nil => rfl
  | cons p t ih =>
    simp only [rec_lines, persist_remove, List.map_cons, List.filter_cons] at ih ⊢
    by_cases h : p.1 = tid
    · simp [h, ih]
    · simp [h, ih]

lemma rec_lines_append {K : Type} (l : List (String × K)) (tid : String) (kw : K) :
    rec_lines (l ++ [(tid, kw)]) = rec_lines l ++ [LogLine.record tid kw] := by
  simp [rec_lines]

lemma run_ops_invariant {K : Type} (ops : List (Op K)) (acc : List (String × K)) :
    ops.foldl apply_op (rec_lines acc) = rec_lines (ops.foldl pending_spec_step acc) := by
  induction ops generalizing acc with
  | nil => rfl
  | cons o t ih =>
    cases o with
    | append tid kw =>
      simp only [List.foldl_cons, apply_op, pending_spec_step, persist_append]
      rw [← rec_lines_append]
      exact ih (acc ++ [(tid, kw)])
    | remove tid =>
      simp only [List.foldl_cons, apply_op, pending_spec_step]
      rw [persist_remove_rec_lines]
      exact ih _

lemma startup_queue_eq_load {K : Type} (log : List (LogLine K)) :
    startup_queue log = persist_load log := by
  have h : ∀ (l q : List (String × K)), l.foldl (fun q p => q ++ [p]) q = q ++ l := by
    intro l
    induction l with
    | nil => simp
    | cons p t ih => intro q; simp [ih]
  simpa [startup_queue] using h (persist_load log) []

/-! ## Generation worker loop (services.py lines 563-592) -/

/-- Outcome of one attempt at processing a dequeued task: the body of
the `try` block either returns normally (the synchronous runner has
already classified success or non-zero exit internally) or raises. -/
inductive Attempt where
  | completed
  | raised (msg : String)

/-- Worker-visible state: the durable log file, plus the per-task
failure records written by the `except` branch of the loop. -/
structure WorkerState (K : Type) where
  log : List (LogLine K)
  failed : List (String × String)

/-- Embedding of one iteration of `_video_gen_worker` on a dequeued
item: `try` the attempt, on an exception write a per-task failure
record `_write_failed_log(task_id, "异常: ...")`, and in the `finally`
block call `_persist_remove(task_id)` unconditionally. -/
def worker_step {K : Type} (att : String → K → Attempt)
    (s : WorkerState K) (item : String × K) : WorkerState K :=
  let tid := item.1
  let s1 :=
    match att tid item.2 with
    | Attempt.completed => s
    | Attempt.raised m => { s with failed := s.failed ++ [(tid, "异常: " ++ m)] }
  { s1 with log := persist_remove tid s1.log }

/-- Embedding of the worker loop over the sequence of items dequeued
before the shutdown sentinel: each item is processed by `worker_step`,
and the loop always proceeds to the next item. -/
def worker_run {K : Type} (att : String → K → Attempt)
    (s : WorkerState K) (items : List (String × K)) : WorkerState K :=
  items.foldl (worker_step att) s

lemma rec_not_mem_persist_remove {K : Type} (tid : String) (log : List (LogLine K))
    (k : K) : LogLine.record tid k ∉ persist_remove tid log := by
  intro hmem
  have := List.of_mem_filter hmem
  simp at this

/-! ## Shell escaping and quoting (services.py lines 151-153, 265-306) -/

/-- The backslash character. -/
def bslash : Char := Char.ofNat 92

/-- The single-quote character. -/
def squote : Char := Char.ofNat 39

/-- The double-quote character. -/
def dquote : Char := Char.ofNat 34

/-- The backquote character. -/
def bquote : Char := Char.ofNat 96

/-- Embedding of Python `str.replace` restricted to a single-character
needle, as used by `_escape_shell_arg`. -/
def replace_char (c : Char) (rep : List Char) : List Char → List Char
  | [] => []
  | x :: xs => (if x = c then rep else [x]) ++ replace_char c rep xs

/-- Embedding of `_escape_shell_arg`:
`s.replace("\\", "\\\\").replace("'", "'\\''")` — first double every
backslash, then replace every single quote with quote-backslash-quote-quote. -/
def escape_shell_arg (s : List Char) : List Char :=
  replace_char squote [squote, bslash, squote, squote]
    (replace_char bslash [bslash, bslash] s)

/-- The fragment `'{escaped}'` that `_build_command_safe` interpolates
into the command line for each user-supplied string value. -/
def quoted_arg (s : List Char) : List Char :=
  squote :: (escape_shell_arg s ++ [squote])

/-- Characters that are active for the POSIX shell outside quotes:
whitespace (word-splitting) and the standard metacharacters and
expansion/substitution triggers. -/
def is_shell_meta (c : Char) : Bool :=
  c = ' ' || c = Char.ofNat 9 || c = Char.ofNat 10 ||
  c = ';' || c = '&' || c = '|' || c = '<' || c = '>' ||
  c = '(' || c = ')' || c = '$' || c = bquote || c = dquote ||
  c = '*' || c = '?' || c = '#' || c = '~'

/-- Scanner state for POSIX-shell word evaluation: outside quotes,
inside single quotes, or immediately after an unquoted backslash. -/
inductive ShellMode where
  | out
  | inq
  | esc
deriving DecidableEq

/-- POSIX-shell evaluation of one word.  Inside single quotes every
character up to the closing quote is literal.  Outside, a backslash
makes the next character literal, a single quote opens a quoted span,
and any active metacharacter means the fragment does not evaluate to
a single plain word (the word ends or a shell construct starts),
which we flag as `none`; an unterminated quote or a trailing
backslash is also `none`. -/
def shell_eval_aux : List Char → ShellMode → Option (List Char)
  | [], ShellMode.out => some []
  | [], ShellMode.inq => none
  | [], ShellMode.esc => none
  | c :: rest, ShellMode.inq =>
    if c = squote then shell_eval_aux rest ShellMode.out
    else (shell_eval_aux rest ShellMode.inq).map (fun l => c :: l)
  | c :: rest, ShellMode.esc =>
    (shell_eval_aux rest ShellMode.out).map (fun l => c :: l)
  | c :: rest, ShellMode.out =>
    if c = squote then shell_eval_aux rest ShellMode.inq
    else if is_shell_meta c then none
    else if c = bslash then shell_eval_aux rest ShellMode.esc
    else (shell_eval_aux rest ShellMode.out).map (fun l => c :: l)

/-- POSIX-shell evaluation of a fragment starting outside quotes. -/
def shell_eval_word (w : List Char) : Option (List Char) :=
  shell_eval_aux w ShellMode.out

/-- A string with every backslash doubled. -/
def double_backslashes (s : List Char) : List Char :=
  s.flatMap fun c => if c = bslash then [bslash, bslash] else [c]

/-- Per-character effect of the two sequential replaces of
`_escape_shell_arg`. -/
def escape_char (c : Char) : List Char :=
  if c = bslash then [bslash, bslash]
  else if c = squote then [squote, bslash, squote, squote]
  else [c]

lemma replace_char_append (c : Char) (rep : List Char) (l1 l2 : List Char) :
    replace_char c rep (l1 ++ l2) = replace_char c rep l1 ++ replace_char c rep l2 := by
  induction l1 with
  | nil => rfl
  | cons x xs ih => simp [replace_char, ih]

lemma escape_shell_arg_eq_flatMap (s : List Char) :
    escape_shell_arg s = s.flatMap escape_char := by
  induction s with
  | nil => rfl
  | cons c t ih =>
    show replace_char squote _ (replace_char bslash _ (c :: t)) = _
    rw [show replace_char bslash [bslash, bslash] (c :: t) =
          (if c = bslash then [bslash, bslash] else [c]) ++
            replace_char bslash [bslash, bslash] t from rfl,
        replace_char_append]
    by_cases hb : c = bslash
    · subst hb
      rw [if_pos rfl]
      simp only [List.flatMap_cons]
      rw [show escape_char bslash = [bslash, bslash] from rfl]
      have h2 : replace_char squote [squote, bslash, squote, squote]
          [bslash, bslash] = [bslash, bslash] := by decide
      rw [h2]
      exact congrArg _ ih
    · rw [if_neg hb]
      by_cases hq : c = squote
      · subst hq
        simp only [List.flatMap_cons]
        rw [show escape_char squote = [squote, bslash, squote, squote] from rfl]
        have h2 : replace_char squote [squote, bslash, squote, squote]
            [squote] = [squote, bslash, squote, squote] := by decide
        rw [h2]
        exact congrArg _ ih
      · simp only [List.flatMap_cons]
        rw [show escape_char c = [c] from by simp [escape_char, hb, hq]]
        rw [show replace_char squote [squote, bslash, squote, squote] [c] =
              [c] from by simp [replace_char, hq]]
        exact congrArg _ ih

lemma shell_eval_aux_escape (s : List Char) :
    shell_eval_aux (s.flatMap escape_char ++ [squote]) ShellMode.inq =
      some (double_backslashes s) := by
  induction s with
  | nil =>
    show shell_eval_aux ([squote]) ShellMode.inq = some []
    simp [shell_eval_aux]
  | cons c t ih =>
    by_cases hb : c = bslash
    · subst hb
      show shell_eval_aux
        (([bslash, bslash] ++ t.flatMap escape_char) ++ [squote]) ShellMode.inq = _
      rw [List.append_assoc]
      show shell_eval_aux
        (bslash :: bslash :: (t.flatMap escape_char ++ [squote])) ShellMode.inq = _
      rw [shell_eval_aux, if_neg (by decide), shell_eval_aux, if_neg (by decide), ih]
      simp [double_backslashes]
    · by_cases hq : c = squote
      · subst hq
        show shell_eval_aux
          (([squote, bslash, squote, squote] ++ t.flatMap escape_char) ++ [squote])
            ShellMode.inq = _

        rw [List.append_assoc]
        show shell_eval_aux
          (squote :: bslash :: squote :: squote :: (t.flatMap escape_char ++ [squote]))
            ShellMode.inq = _
        rw [shell_eval_aux, if_pos rfl, shell_eval_aux, if_neg (by decide),
          if_neg (by decide), if_pos rfl, shell_eval_aux, shell_eval_aux, if_pos rfl, ih]
        simp [double_backslashes, hb]
      · have he : escape_char c = [c] := by simp [escape_char, hb, hq]
        rw [List.flatMap_cons, he, List.append_assoc]
        show shell_eval_aux (c :: (t.flatMap escape_char ++ [squote])) ShellMode.inq = _
        rw [shell_eval_aux, if_neg hq, ih]
        simp [double_backslashes, hb]

lemma shell_eval_quoted_arg (s : List Char) :
    shell_eval_word (quoted_arg s) = some (double_backslashes s) := by
  show shell_eval_aux (squote :: (escape_shell_arg s ++ [squote])) ShellMode.out = _
  rw [shell_eval_aux, if_pos rfl, escape_shell_arg_eq_flatMap]
  exact shell_eval_aux_escape s

lemma double_backslashes_of_no_bslash (s : List Char) (h : bslash ∉ s) :
    double_backslashes s = s := by
  induction s with
  | nil => rfl
  | cons c t ih =>
    have hc : c ≠ bslash := fun hc => h (hc ▸ List.mem_cons_self c t)
    have ht : bslash ∉ t := fun hm => h (List.mem_cons_of_mem c hm)
    simp [double_backslashes, hc] at ih ⊢
    exact ih ht

/-! ## Exit-code classification (services.py lines 118-132) -/

/-- Embedding of `_get_exit_code_desc`. -/
def get_exit_code_desc (exit_code : Int) : String :=
  if exit_code = 0 then "正常结束"
  else if exit_code = 1 then "一般错误（如参数错误、GPU OOM、模型加载失败、推理异常等）"
  else if exit_code = 137 then "通常为内存不足被杀（OOM Killed）"
  else if exit_code = 139 then "段错误（Segmentation fault），可能是显存溢出或驱动问题"
  else if exit_code = 143 then "进程被 SIGTERM 终止"
  else if exit_code = -9 then "进程被强制杀死（SIGKILL）"
  else "异常退出(exit=" ++ toString exit_code ++ ")"

/-! ## Asset locator resolution (serializers.py lines 19-38) -/

/-- Characters stripped by Python `str.strip()` (the ASCII whitespace
range). -/
def is_py_space (c : Char) : Bool :=
  c = ' ' || c = Char.ofNat 9 || c = Char.ofNat 10 ||
  c = Char.ofNat 13 || c = Char.ofNat 11 || c = Char.ofNat 12

/-- Embedding of Python `str.strip()` on character lists. -/
def py_strip (s : List Char) : List Char :=
  ((s.dropWhile is_py_space).reverse.dropWhile is_py_space).reverse

/-- Whether `pre` is an initial segment of `s`. -/
def starts_with (pre s : List Char) : Bool :=
  s.take pre.length == pre

/-- The `local:` pseudo-URL scheme marker. -/
def local_scheme : List Char := ("local:" : String).data

/-- Embedding of `_resolve_asset_url`: a `local:<subpath>` locator
(case-insensitive scheme, checked after `strip()`) resolves against
the merge base directory when `for_merge` is set and the generation
base directory otherwise; the base has backslashes normalised to
slashes and trailing slashes removed, the subpath has leading slashes
removed, and the scheme prefix is `file://` for an absolute base and
`file:///` otherwise.  Empty or all-whitespace input is returned as
given; any other non-`local:` input is returned stripped. -/
def resolve_asset_url (value : List Char) (for_merge : Bool)
    (merge_base gen_base : List Char) : List Char :=
  if py_strip value = [] then value
  else
    let s := py_strip value
    if starts_with local_scheme (s.map Char.toLower) then
      let subpath := (s.drop 6).dropWhile (fun c => c = '/')
      let base0 := if for_merge then merge_base else gen_base
      let base := ((base0.map fun c => if c = bslash then '/' else c).reverse.dropWhile
        (fun c => c = '/')).reverse
      let pre := if base.take 1 = ['/'] then ("file://" : String).data
        else ("file:///" : String).data
      pre ++ base ++ '/' :: subpath
    else s

/-! ## Result directory, artifact checks and the local runner
(services.py lines 328-351 and 416-465) -/

/-- The settings consulted by the generation result path. -/
structure GenSettings where
  result_dir_single_shot : String
  result_dir_reference : String
  video_create_notify_url : String

/-- Python `str.strip()` on `String`. -/
def py_strip_s (s : String) : String :=
  String.mk (py_strip s.data)

/-- Python `str.rstrip('/')` on `String`. -/
def rstrip_slash_s (s : String) : String :=
  String.mk ((s.data.reverse.dropWhile fun c => c = '/').reverse)

/-- Embedding of `_get_result_dir`: the single-shot-extension result
directory for that kind, the reference-to-video directory for every
other kind. -/
def get_result_dir (st : GenSettings) (task_type : String) : String :=
  if task_type = "single_shot_extension" then st.result_dir_single_shot
  else st.result_dir_reference

/-- Embedding of `_check_mp4_exists_local`: with an unconfigured
result directory the check returns `True`; otherwise it asks the
filesystem whether `{task_id}.mp4` exists under the directory. -/
def check_mp4_exists_local (st : GenSettings) (fs : String → Bool)
    (task_id task_type : String) : Bool :=
  let result_dir := get_result_dir st task_type
  if result_dir = "" then true
  else fs (result_dir ++ "/" ++ task_id ++ ".mp4")

/-- Embedding of `_check_mp4_exists_ssh`: with an unconfigured result
directory the check returns `True`; otherwise the oracle reports
whether the remote `test -f` probe printed `ok` (a transport
exception is already folded into a `false` answer). -/
def check_mp4_exists_ssh (st : GenSettings) (remote_probe : String → Bool)
    (task_id task_type : String) : Bool :=
  let result_dir := get_result_dir st task_type
  if result_dir = "" then true
  else remote_probe (rstrip_slash_s result_dir ++ "/" ++ task_id ++ ".mp4")

/-- Observable effects of one synchronous run: the failure record (if
one was written), the notifications issued, and the uploaded URL. -/
structure RunOutcome where
  failed_log : Option String
  notifies : List (String × String)
  oss_url : String
deriving DecidableEq

/-- Embedding of `_run_local_sync` after the subprocess has returned
`returncode`.  `fs` is the local filesystem existence oracle and
`upload_url` is the value `_upload_video_to_cos_and_log` would return
for this artifact (empty on any upload failure or missing
credentials).  A non-zero exit writes a failure record and notifies
FAIL; a zero exit with the expected `{task_id}.mp4` absent writes a
failure record and notifies FAIL; otherwise the upload result is
reported, SUCCESS exactly when a URL was obtained. -/
def run_local_sync (st : GenSettings) (fs : String → Bool) (upload_url : String)
    (task_id task_type log_file : String) (returncode : Int) : RunOutcome :=
  let notify_url := py_strip_s st.video_create_notify_url
  if returncode ≠ 0 then
    { failed_log := some ("本机脚本退出码 " ++ toString returncode ++ "，" ++
        get_exit_code_desc returncode ++ "。详细错误见下方日志（" ++ log_file ++ "）"),
      notifies := if notify_url ≠ "" then [("", "FAIL")] else [],
      oss_url := "" }
  else if check_mp4_exists_local st fs task_id task_type = false then
    { failed_log := some ("脚本退出码 0 但未找到 " ++ task_id ++ ".mp4（路径: " ++
        get_result_dir st task_type ++ "）"),
      notifies := if notify_url ≠ "" then [("", "FAIL")] else [],
      oss_url := "" }
  else
    let result_dir := get_result_dir st task_type
    let oss_url := if result_dir ≠ "" then upload_url else ""
    { failed_log := none,
      notifies := if notify_url ≠ "" then
        [(oss_url, if oss_url ≠ "" then "SUCCESS" else "FAIL")] else [],
      oss_url := oss_url }

/-! ## Merge pipeline (merge_service.py) -/

/-- The settings consulted by `_merge_videos_sync`. -/
structure MergeSettings where
  merge_notify_url : String
  cos_secret_id : String
  cos_secret_key : String
  cos_bucket : String
  cos_region : String
  merged_key_root : String
  oss_url_log_path : String

/-- External-world oracles for one merge run: per-URL download
success, per-index container-repair success, concat success, per-
attempt upload failure, and the wall-clock timestamp string. -/
structure MergeEnv where
  download_ok : String → Bool
  repair_ok : Nat → Bool
  concat_ok : Bool
  upload_fails : Nat → Bool
  now : String

/-- Whether the retry loop ended by `break` (成功) or by re-raising the
last attempt's exception. -/
inductive UploadResult where
  | ok
  | raised
deriving DecidableEq

/-- Trace of the COS upload retry loop: attempts actually made, the
backoff waits slept between attempts, and how the loop ended. -/
structure RetryTrace where
  attempts : Nat
  waits : List Nat
  result : UploadResult
deriving DecidableEq

/-- Embedding of the body of
`for attempt in range(max_retries): try upload; break; except: if
attempt < max_retries - 1: sleep(5 * (attempt + 1)) else: raise`,
with `fuel` the number of iterations left. -/
def cos_retry_aux (fails : Nat → Bool) (attempt fuel : Nat) : RetryTrace :=
  match fuel with
  | 0 => ⟨0, [], UploadResult.ok⟩
  | f + 1 =>
    if fails attempt then
      if f = 0 then ⟨1, [], UploadResult.raised⟩
      else
        let t := cos_retry_aux fails (attempt + 1) f
        ⟨t.attempts + 1, 5 * (attempt + 1) :: t.waits, t.result⟩
    else ⟨1, [], UploadResult.ok⟩

/-- The retry loop as run by `_merge_videos_sync`, with
`max_retries = 3`. -/
def cos_upload_retry (fails : Nat → Bool) : RetryTrace :=
  cos_retry_aux fails 0 3

/-- Embedding of the region sanitisation:
`(region or 'ap-beijing').strip()` filtered to alphanumerics and
dashes, falling back to `ap-beijing` when nothing is left. -/
def sanitize_region (r : String) : String :=
  let base := if r = "" then "ap-beijing" else r
  let filtered := (py_strip base.data).filter fun c => c.isAlphanum || c = '-'
  if filtered = [] then "ap-beijing" else String.mk filtered

/-- The public URL built after a successful upload:
`https://{bucket}.cos.{region}.myqcloud.com/{prefix-with-trailing-
slashes-removed}/{task_id}.mp4`. -/
def cos_public_url (st : MergeSettings) (task_id : String) : String :=
  "https://" ++ st.cos_bucket ++ ".cos." ++ sanitize_region st.cos_region ++
    ".myqcloud.com/" ++ rstrip_slash_s st.merged_key_root ++ "/" ++ task_id ++ ".mp4"

/-- One line of the append-only merged-URL audit log. -/
def url_log_line (now task_id url : String) : String :=
  "[" ++ now ++ "] taskId=" ++ task_id ++ " " ++ url

/-- Observable effects of one merge run. -/
structure MergeOutcome where
  output_written : Bool
  repairs_attempted : Nat
  concat_attempted : Bool
  upload_attempts : Nat
  url_log_appends : List String
  notifies : List (String × String)
deriving DecidableEq

/-- The notifications `_notify` issues: one when a callback URL is
configured, none otherwise. -/
def merge_notifies (st : MergeSettings) (video_url status : String) :
    List (String × String) :=
  if st.merge_notify_url ≠ "" then [(video_url, status)] else []

/-- Outcome of the early-return failure paths taken before any repair
work: no output, no repairs, no concat, a single FAIL notification
with empty URL when configured. -/
def merge_fail_early (st : MergeSettings) : MergeOutcome :=
  ⟨false, 0, false, 0, [], merge_notifies st "" "FAIL"⟩

/-- Whether all three storage credentials are present
(`secret_id and secret_key and bucket_name`). -/
def cos_configured (st : MergeSettings) : Bool :=
  st.cos_secret_id != "" && st.cos_secret_key != "" && st.cos_bucket != ""

/-- Embedding of the tail of `_merge_videos_sync` once the output file
exists: optional upload with retries (skipped without credentials; a
final re-raise is caught by the surrounding handler, leaving the URL
empty), conditional append to the URL audit log, and the final
notification (SUCCESS exactly when a URL was obtained). -/
def merge_upload_finish (st : MergeSettings) (env : MergeEnv) (task_id : String)
    (repairs : Nat) (concat_done : Bool) : MergeOutcome :=
  let trace := if cos_configured st then cos_upload_retry env.upload_fails
    else ⟨0, [], UploadResult.ok⟩
  let oss_url := if cos_configured st then
      (if trace.result = UploadResult.ok then cos_public_url st task_id else "")
    else ""
  { output_written := true,
    repairs_attempted := repairs,
    concat_attempted := concat_done,
    upload_attempts := trace.attempts,
    url_log_appends := if oss_url ≠ "" ∧ st.oss_url_log_path ≠ "" then
      [url_log_line env.now task_id oss_url] else [],
    notifies := merge_notifies st oss_url (if oss_url ≠ "" then "SUCCESS" else "FAIL") }

/-- Embedding of the container-repair loop over the `n` downloaded
files starting at index `i`: sequential, aborting at the first repair
failure; returns the number of repair invocations made and whether
all succeeded. -/
def repair_go (env : MergeEnv) (i remaining : Nat) : Nat × Bool :=
  match remaining with
  | 0 => (0, true)
  | r + 1 =>
    if env.repair_ok i then
      let t := repair_go env (i + 1) r
      (t.1 + 1, t.2)
    else (1, false)

/-- Embedding of `_merge_videos_sync` after the download loop, given
`n` successfully downloaded files: the zero-file guard, the repair
loop, then either direct copy (one file) or concat (several), then
the upload/notify tail. -/
def merge_after_download (st : MergeSettings) (env : MergeEnv) (task_id : String)
    (n : Nat) : MergeOutcome :=
  if n = 0 then merge_fail_early st
  else
    let rep := repair_go env 0 n
    if rep.2 = false then
      ⟨false, rep.1, false, 0, [], merge_notifies st "" "FAIL"⟩
    else if n = 1 then
      merge_upload_finish st env task_id rep.1 false
    else if env.concat_ok then
      merge_upload_finish st env task_id rep.1 true
    else
      ⟨false, rep.1, true, 0, [], merge_notifies st "" "FAIL"⟩

/-- Embedding of the download loop of `_merge_videos_sync`: sources
are fetched in order, and the first failure returns immediately with
a single FAIL notification, before any repair or concat work. -/
def merge_download_go (st : MergeSettings) (env : MergeEnv) (task_id : String) :
    List String → Nat → MergeOutcome
  | [], n => merge_after_download st env task_id n
  | url :: rest, n =>
    if env.download_ok url then merge_download_go st env task_id rest (n + 1)
    else merge_fail_early st

/-- Embedding of `_merge_videos_sync` as a whole. -/
def merge_videos_sync (st : MergeSettings) (env : MergeEnv) (task_id : String)
    (video_urls : List String) : MergeOutcome :=
  merge_download_go st env task_id video_urls 0

/-! ## Claim theorems -/

/-- C1: for every task dequeued by the generation worker, the durable
log record for that task is removed after the attempt finishes,
whatever the outcome; an exception raised while processing is caught
and recorded in a per-task failure record; and the loop is a total
fold, proceeding to the next queued item. -/
theorem worker_finally_removes_and_continues {K : Type}
    (att : String → K → Attempt) (s : WorkerState K) (tid : String) (kw : K)
    (rest : List (String × K)) :
    (worker_step att s (tid, kw)).log = persist_remove tid s.log
    ∧ (∀ k : K, LogLine.record tid k ∉ (worker_step att s (tid, kw)).log)
    ∧ (∀ m : String, att tid kw = Attempt.raised m →
        (tid, "异常: " ++ m) ∈ (worker_step att s (tid, kw)).failed)
    ∧ worker_run att s ((tid, kw) :: rest) =
        worker_run att (worker_step att s (tid, kw)) rest := by
  have h1 : (worker_step att s (tid, kw)).log = persist_remove tid s.log := by
    cases h : att tid kw <;> simp [worker_step, h]
  refine ⟨h1, ?_, ?_, rfl⟩
  · intro k
    rw [h1]
    exact rec_not_mem_persist_remove tid s.log k
  · intro m hm
    simp [worker_step, hm]

/-- C1 witness: a concrete run in which the attempt raises, showing
the failure record for the task and the removal of its log entry. -/
theorem worker_finally_removes_and_continues_witness :
    ("t1", "异常: " ++ "boom") ∈
      (worker_step (fun _ _ => Attempt.raised "boom")
        (⟨[LogLine.record "t1" (0 : Nat)], []⟩ : WorkerState Nat) ("t1", 0)).failed
    ∧ (worker_step (fun _ _ => Attempt.raised "boom")
        (⟨[LogLine.record "t1" (0 : Nat)], []⟩ : WorkerState Nat) ("t1", 0)).log =
          persist_remove "t1" [LogLine.record "t1" (0 : Nat)] := by
  have h := worker_finally_removes_and_continues
    (fun (_ : String) (_ : Nat) => Attempt.raised "boom")
    (⟨[LogLine.record "t1" (0 : Nat)], []⟩ : WorkerState Nat) "t1" 0 []
  exact ⟨h.2.2.1 "boom" rfl, h.1⟩

/-- C2: starting from an empty durable log, any sequence of append
and remove operations leaves exactly the records appended and not
subsequently removed, in append order; loading the log returns them,
and the startup re-enqueue loop puts them into the queue in the same
order. -/
theorem durable_log_load_matches_pending_ops {K : Type} (ops : List (Op K)) :
    persist_load (run_ops ops) = pending_spec ops
    ∧ startup_queue (run_ops ops) = pending_spec ops := by
  have h : run_ops ops = rec_lines (pending_spec ops) := by
    have h0 := run_ops_invariant ops ([] : List (String × K))
    simpa [run_ops, pending_spec, rec_lines] using h0
  constructor
  · rw [h]
    exact persist_load_rec_lines _
  · rw [startup_queue_eq_load, h]
    exact persist_load_rec_lines _

/-- C3 counterexample: for the one-character string consisting of a
single backslash, the quoted fragment built by the command builder
evaluates under POSIX-shell rules to two backslashes, not to the
original string — backslashes are literal inside single quotes, so
doubling them changes the value. -/
theorem quoted_arg_roundtrip_counterexample :
    shell_eval_word (quoted_arg [bslash]) ≠ some [bslash]
    ∧ shell_eval_word (quoted_arg [bslash]) = some [bslash, bslash] := by
  decide

/-- C3 amended: the command builder embeds each user-supplied string
wrapped in single quotes with embedded single quotes escaped and
backslashes doubled; POSIX-shell evaluation of the quoted fragment
always yields a single argument — no metacharacter escapes the
quoting, so no caller-controlled string can alter the command
structure — and that argument is the original string with each
backslash doubled, hence exactly the original string whenever it
contains no backslash. -/
theorem quoted_arg_single_word_doubles_backslashes (s : List Char) :
    shell_eval_word (quoted_arg s) = some (double_backslashes s)
    ∧ (bslash ∉ s → shell_eval_word (quoted_arg s) = some s) := by
  refine ⟨shell_eval_quoted_arg s, fun h => ?_⟩
  rw [shell_eval_quoted_arg s, double_backslashes_of_no_bslash s h]

/-- C3 amended witness: a backslash-free string containing a quote,
spaces and a dollar sign round-trips exactly. -/
theorem quoted_arg_single_word_doubles_backslashes_witness :
    shell_eval_word (quoted_arg ("a b$c" : String).data) =
      some ("a b$c" : String).data :=
  (quoted_arg_single_word_doubles_backslashes ("a b$c" : String).data).2 (by decide)

/-- C8 counterexample: exit code -9 is not mapped to the generic
abnormal-exit description — the code gives it its own SIGKILL
description, which the claim's taxonomy omits. -/
theorem exit_code_desc_counterexample :
    get_exit_code_desc (-9) = "进程被强制杀死（SIGKILL）"
    ∧ get_exit_code_desc (-9) ≠ "异常退出(exit=-9)" := by
  constructor
  · rfl
  · decide

/-- C8 amended: the classifier maps 0, 1, 137, 139, 143 and -9 to
their dedicated descriptions and every other integer exit code to the
generic abnormal-exit description. -/
theorem exit_code_desc_taxonomy (e : Int) :
    get_exit_code_desc 0 = "正常结束"
    ∧ get_exit_code_desc 1 = "一般错误（如参数错误、GPU OOM、模型加载失败、推理异常等）"
    ∧ get_exit_code_desc 137 = "通常为内存不足被杀（OOM Killed）"
    ∧ get_exit_code_desc 139 = "段错误（Segmentation fault），可能是显存溢出或驱动问题"
    ∧ get_exit_code_desc 143 = "进程被 SIGTERM 终止"
    ∧ get_exit_code_desc (-9) = "进程被强制杀死（SIGKILL）"
    ∧ (e ≠ 0 → e ≠ 1 → e ≠ 137 → e ≠ 139 → e ≠ 143 → e ≠ -9 →
        get_exit_code_desc e = "异常退出(exit=" ++ toString e ++ ")") := by
  refine ⟨rfl, rfl, rfl, rfl, rfl, rfl, ?_⟩
  intro h0 h1 h137 h139 h143 h9
  simp [get_exit_code_desc, h0, h1, h137, h139, h143, h9]

/-- C8 amended witness: exit code 42 takes the generic branch. -/
theorem exit_code_desc_taxonomy_witness :
    get_exit_code_desc 42 = "异常退出(exit=" ++ toString (42 : Int) ++ ")" :=
  (exit_code_desc_taxonomy 42).2.2.2.2.2.2 (by decide) (by decide) (by decide)
    (by decide) (by decide) (by decide)

/-- C4: when the result directory for the task's kind is configured
and the expected `{task_id}.mp4` is absent, a zero exit is recorded
as a failure: a failure record naming the missing file is written and
the notification (when a callback URL is configured) is FAIL with an
empty video URL. -/
theorem zero_exit_missing_artifact_fails (st : GenSettings) (fs : String → Bool)
    (upload_url task_id task_type log_file : String)
    (hdir : get_result_dir st task_type ≠ "")
    (habs : fs (get_result_dir st task_type ++ "/" ++ task_id ++ ".mp4") = false) :
    check_mp4_exists_local st fs task_id task_type = false
    ∧ (run_local_sync st fs upload_url task_id task_type log_file 0).failed_log =
        some ("脚本退出码 0 但未找到 " ++ task_id ++ ".mp4（路径: " ++
          get_result_dir st task_type ++ "）")
    ∧ (py_strip_s st.video_create_notify_url ≠ "" →
        (run_local_sync st fs upload_url task_id task_type log_file 0).notifies =
          [("", "FAIL")]) := by
  have hchk : check_mp4_exists_local st fs task_id task_type = false := by
    simp [check_mp4_exists_local, hdir, habs]
  refine ⟨hchk, ?_, ?_⟩
  · simp [run_local_sync, hchk]
  · intro hn
    simp [run_local_sync, hchk, hn]

/-- C4 witness: a configured reference-to-video result directory, a
filesystem on which nothing exists, and a configured callback URL. -/
theorem zero_exit_missing_artifact_fails_witness :
    get_result_dir ⟨"", "/res", "http://cb"⟩ "reference_to_video" ≠ ""
    ∧ (run_local_sync ⟨"", "/res", "http://cb"⟩ (fun _ => false) "" "t7"
        "reference_to_video" "/tmp/l" 0).notifies = [("", "FAIL")] := by
  have h := zero_exit_missing_artifact_fails ⟨"", "/res", "http://cb"⟩
    (fun _ => false) "" "t7" "reference_to_video" "/tmp/l" (by decide) rfl
  exact ⟨by decide, h.2.2 (by decide)⟩

/-- Helper: the download loop returns the early-failure outcome as
soon as some source URL fails to download, regardless of how many
sources were already fetched. -/
lemma merge_download_go_fail (st : MergeSettings) (env : MergeEnv)
    (task_id : String) (urls : List String) (n : Nat)
    (h : ∃ u ∈ urls, env.download_ok u = false) :
    merge_download_go st env task_id urls n = merge_fail_early st := by
  induction urls generalizing n with
  | nil => rcases h with ⟨u, hu, _⟩; cases hu
  | cons u rest ih =>
    by_cases hd : env.download_ok u
    · rcases h with ⟨v, hv, hvf⟩
      rcases List.mem_cons.mp hv with rfl | hvr
      · rw [hd] at hvf; cases hvf
      · simp only [merge_download_go, hd, if_true]
        exact ih n.succ ⟨v, hvr, hvf⟩
    · simp [merge_download_go, hd]

/-- C5: if any source URL fails to download, the merge pipeline
returns immediately: no output file is written, no repair and no
concatenation is attempted, and (when a callback URL is configured)
exactly one FAIL notification with an empty video URL is sent. -/
theorem merge_download_failure_fail_fast (st : MergeSettings) (env : MergeEnv)
    (task_id : String) (urls : List String)
    (h : ∃ u ∈ urls, env.download_ok u = false) :
    (merge_videos_sync st env task_id urls).output_written = false
    ∧ (merge_videos_sync st env task_id urls).repairs_attempted = 0
    ∧ (merge_videos_sync st env task_id urls).concat_attempted = false
    ∧ (st.merge_notify_url ≠ "" →
        (merge_videos_sync st env task_id urls).notifies = [("", "FAIL")])
    ∧ (merge_videos_sync st env task_id urls).notifies.length ≤ 1 := by
  have he : merge_videos_sync st env task_id urls = merge_fail_early st :=
    merge_download_go_fail st env task_id urls 0 h
  rw [he]
  refine ⟨rfl, rfl, rfl, fun hn => ?_, ?_⟩
  · simp [merge_fail_early, merge_notifies, hn]
  · by_cases hn : st.merge_notify_url = "" <;>
      simp [merge_fail_early, merge_notifies, hn]

/-- C5 witness: two sources of which the second is unreachable, with
a configured callback URL. -/
theorem merge_download_failure_fail_fast_witness :
    (merge_videos_sync ⟨"http://cb", "", "", "", "", "merged/", ""⟩
      ⟨fun u => u ≠ "bad", fun _ => true, true, fun _ => false, "now"⟩
      "m1" ["http://ok.mp4", "bad"]).notifies = [("", "FAIL")] := by
  have h := merge_download_failure_fail_fast
    ⟨"http://cb", "", "", "", "", "merged/", ""⟩
    ⟨fun u => u ≠ "bad", fun _ => true, true, fun _ => false, "now"⟩
    "m1" ["http://ok.mp4", "bad"]
    ⟨"bad", by decide, by decide⟩
  exact h.2.2.2.1 (by decide)

/-- Helper: the public URL of a successful upload is never the empty
string. -/
lemma cos_public_url_ne_empty (st : MergeSettings) (task_id : String) :
    cos_public_url st task_id ≠ "" := by
  intro h
  have h2 : (cos_public_url st task_id).data = ([] : List Char) := by rw [h]
  simp [cos_public_url] at h2

/-- C6: with storage credentials configured, the upload retry loop of
the merge pipeline makes at most 3 attempts, sleeping 5 seconds after
a first failure and 10 seconds after a second; three failures end
with the last exception re-raised; and on a successful upload the
public URL is appended to the URL audit log exactly once, as a single
line carrying the wall-clock timestamp. -/
theorem upload_retry_bounded_with_backoff (fails : Nat → Bool)
    (st : MergeSettings) (env : MergeEnv) (task_id : String)
    (repairs : Nat) (concat_done : Bool) :
    (cos_upload_retry fails).attempts ≤ 3
    ∧ (fails 0 = false → cos_upload_retry fails = ⟨1, [], UploadResult.ok⟩)
    ∧ (fails 0 = true → fails 1 = false →
        cos_upload_retry fails = ⟨2, [5], UploadResult.ok⟩)
    ∧ (fails 0 = true → fails 1 = true → fails 2 = false →
        cos_upload_retry fails = ⟨3, [5, 10], UploadResult.ok⟩)
    ∧ (fails 0 = true → fails 1 = true → fails 2 = true →
        cos_upload_retry fails = ⟨3, [5, 10], UploadResult.raised⟩)
    ∧ (cos_configured st = true → env.upload_fails = fails →
        (cos_upload_retry fails).result = UploadResult.ok →
        st.oss_url_log_path ≠ "" →
        (merge_upload_finish st env task_id repairs concat_done).url_log_appends =
          [url_log_line env.now task_id (cos_public_url st task_id)]) := by
  have htrace : ∀ p : RetryTrace, cos_upload_retry fails = p →
      (cos_upload_retry fails).attempts = p.attempts := fun p hp => by rw [hp]
  refine ⟨?_, ?_, ?_, ?_, ?_, ?_⟩
  · by_cases h0 : fails 0 <;> by_cases h1 : fails 1 <;> by_cases h2 : fails 2 <;>
      simp [cos_upload_retry, cos_retry_aux, h0, h1, h2]
  · intro h0
    simp [cos_upload_retry, cos_retry_aux, h0]
  · intro h0 h1
    simp [cos_upload_retry, cos_retry_aux, h0, h1]
  · intro h0 h1 h2
    simp [cos_upload_retry, cos_retry_aux, h0, h1, h2]
  · intro h0 h1 h2
    simp [cos_upload_retry, cos_retry_aux, h0, h1, h2]
  · intro hcfg hf hok hlog
    simp only [merge_upload_finish, hcfg, if_true, hf, hok, if_pos rfl]
    rw [if_pos ⟨cos_public_url_ne_empty st task_id, hlog⟩]

/-- C6 witness: an upload that fails twice then succeeds makes three
attempts with waits of 5 and 10 seconds, and a configured merge run
appends exactly one timestamped URL line to the audit log. -/
theorem upload_retry_bounded_with_backoff_witness :
    cos_upload_retry (fun n => n < 2) = ⟨3, [5, 10], UploadResult.ok⟩
    ∧ (merge_upload_finish ⟨"http://cb", "id", "key", "bkt", "", "merged/", "/log"⟩
        ⟨fun _ => true, fun _ => true, true, (fun n => n < 2), "2026-01-01T00:00:00"⟩
        "m2" 2 true).url_log_appends =
      [url_log_line "2026-01-01T00:00:00" "m2"
        (cos_public_url ⟨"http://cb", "id", "key", "bkt", "", "merged/", "/log"⟩ "m2")] := by
  have h := upload_retry_bounded_with_backoff (fun n => decide (n < 2))
    ⟨"http://cb", "id", "key", "bkt", "", "merged/", "/log"⟩
    ⟨fun _ => true, fun _ => true, true, (fun n => decide (n < 2)), "2026-01-01T00:00:00"⟩
    "m2" 2 true
  refine ⟨h.2.2.2.1 (by decide) (by decide) (by decide), ?_⟩
  exact h.2.2.2.2.2 (by decide) rfl (by
    rw [h.2.2.2.1 (by decide) (by decide) (by decide)]) (by decide)

/-- Helper: the scheme marker as an explicit character list. -/
lemma local_scheme_eq : local_scheme = ['l', 'o', 'c', 'a', 'l', ':'] := by decide

/-- Helper: a list starts with any of its initial segments. -/
lemma starts_with_append (pre x : List Char) : starts_with pre (pre ++ x) = true := by
  simp [starts_with, List.take_left]

/-- C7 counterexample: a locator that does not start with `local:`
but carries surrounding whitespace is returned stripped, not
unchanged. -/
theorem resolve_asset_url_counterexample :
    resolve_asset_url (" http://x" : String).data false
      ("/d" : String).data ("/g" : String).data = ("http://x" : String).data
    ∧ resolve_asset_url (" http://x" : String).data false
        ("/d" : String).data ("/g" : String).data ≠ (" http://x" : String).data := by
  decide

/-- C7 amended: a `local:<subpath>` locator resolves to
`file://{base}/{subpath}` with the merge base directory when called
for the merge pipeline and the generation base directory otherwise —
in particular `local:images/a.png` resolves to
`file:///data/assets/images/a.png` under merge base `/data/assets`
and to `file:///home/test_assets/images/a.png` under generation base
`/home/test_assets`; in general, for a base in normal form (absolute,
no backslashes, no trailing slash) and a subpath without leading
slashes or surrounding whitespace, resolution yields exactly
`file://` ++ base ++ `/` ++ subpath; and a locator not starting with
`local:` (case-insensitively, after stripping) is returned stripped
of surrounding whitespace — unchanged exactly when it has none. -/
theorem resolve_asset_url_spec (subpath base v : List Char) (for_merge : Bool)
    (mb gb : List Char)
    (hb1 : (base.map fun c => if c = bslash then '/' else c) = base)
    (hb2 : (base.reverse.dropWhile fun c => c = '/').reverse = base)
    (hb3 : base.take 1 = ['/'])
    (hs1 : subpath.dropWhile (fun c => c = '/') = subpath)
    (hs2 : py_strip (local_scheme ++ subpath) = local_scheme ++ subpath)
    (hv1 : py_strip v = v) (hv2 : v ≠ [])
    (hv3 : starts_with local_scheme (v.map Char.toLower) = false) :
    resolve_asset_url ("local:images/a.png" : String).data true
      ("/data/assets" : String).data ("/home/test_assets" : String).data =
        ("file:///data/assets/images/a.png" : String).data
    ∧ resolve_asset_url ("local:images/a.png" : String).data false
        ("/data/assets" : String).data ("/home/test_assets" : String).data =
          ("file:///home/test_assets/images/a.png" : String).data
    ∧ resolve_asset_url (local_scheme ++ subpath) for_merge base base =
        ("file://" : String).data ++ base ++ '/' :: subpath
    ∧ resolve_asset_url v for_merge mb gb = v := by
  refine ⟨by decide, by decide, ?_, ?_⟩
  · have hlen : local_scheme.length = 6 := by decide
    have hdrop : (local_scheme ++ subpath).drop 6 = subpath := by
      rw [← hlen]
      exact List.drop_left _ _
    have hlower : (local_scheme ++ subpath).map Char.toLower =
        local_scheme ++ subpath.map Char.toLower := by
      rw [List.map_append]
      rw [show local_scheme.map Char.toLower = local_scheme from by decide]
    have hne : local_scheme ++ subpath ≠ [] := by
      rw [local_scheme_eq]
      simp
    simp only [resolve_asset_url, hs2, if_neg hne, hlower, starts_with_append,
      if_true, hdrop, hs1]
    cases for_merge <;> simp [hb1, hb2, hb3]
  · simp only [resolve_asset_url, hv1, if_neg hv2, hv3]
    simp

/-- C7 amended witness: concrete instances of the general local form
and of the stripped non-local form. -/
theorem resolve_asset_url_spec_witness :
    resolve_asset_url (local_scheme ++ ("img/b.png" : String).data) true
      ("/base/dir" : String).data ("/base/dir" : String).data =
        ("file://" : String).data ++ ("/base/dir" : String).data ++
          '/' :: ("img/b.png" : String).data
    ∧ resolve_asset_url ("http://host/v.mp4" : String).data false
        ("/m" : String).data ("/g" : String).data = ("http://host/v.mp4" : String).data := by
  have h := resolve_asset_url_spec ("img/b.png" : String).data
    ("/base/dir" : String).data ("http://host/v.mp4" : String).data true
    ("/m" : String).data ("/g" : String).data
    (by decide) (by decide) (by decide) (by decide) (by decide)
    (by decide) (by decide) (by decide)
  exact ⟨h.2.2.1, h.2.2.2⟩

/-- C9: with an unconfigured (empty) result directory setting for the
task's kind, both artifact-existence checks return true regardless of
the filesystem, and a zero-exit run writes no failure record — the
task is declared successful without any validation of the output. -/
theorem unconfigured_result_dir_skips_validation (st : GenSettings)
    (fs remote_probe : String → Bool) (upload_url task_id task_type log_file : String)
    (hdir : get_result_dir st task_type = "") :
    check_mp4_exists_local st fs task_id task_type = true
    ∧ check_mp4_exists_ssh st remote_probe task_id task_type = true
    ∧ (run_local_sync st fs upload_url task_id task_type log_file 0).failed_log = none := by
  refine ⟨by simp [check_mp4_exists_local, hdir],
    by simp [check_mp4_exists_ssh, hdir], ?_⟩
  simp [run_local_sync, check_mp4_exists_local, hdir]

/-- C9 witness: with both result-directory settings empty and a
filesystem on which nothing exists, a zero-exit run writes no failure
record. -/
theorem unconfigured_result_dir_skips_validation_witness :
    check_mp4_exists_local ⟨"", "", "cb"⟩ (fun _ => false) "t9" "reference_to_video" = true
    ∧ (run_local_sync ⟨"", "", "cb"⟩ (fun _ => false) "" "t9" "reference_to_video"
        "/tmp/l" 0).failed_log = none := by
  have h := unconfigured_result_dir_skips_validation ⟨"", "", "cb"⟩
    (fun _ => false) (fun _ => false) "" "t9" "reference_to_video" "/tmp/l" rfl
  exact ⟨h.1, h.2.2⟩

/-- C10: removing a task id deletes every record line carrying that
id (duplicates included); a line that fails JSON decoding is skipped
by removal — hence dropped from the rewritten file — and skipped by
loading, so it is never re-enqueued at startup. -/
theorem remove_drops_duplicates_and_corrupt_lines {K : Type}
    (log : List (LogLine K)) (tid t raw : String) :
    (∀ k : K, LogLine.record tid k ∉ persist_remove tid log)
    ∧ persist_remove t (LogLine.badJson raw :: log) = persist_remove t log
    ∧ persist_load (LogLine.badJson raw :: log) = persist_load log
    ∧ LogLine.badJson raw ∉ persist_remove t log
    ∧ startup_queue (LogLine.badJson raw :: log) = startup_queue log := by
  refine ⟨fun k => rec_not_mem_persist_remove tid log k, ?_, ?_, ?_, ?_⟩
  · simp [persist_remove]
  · simp [persist_load]
  · intro hmem
    have := List.of_mem_filter hmem
    simp at this
  · rw [startup_queue_eq_load, startup_queue_eq_load]
    simp [persist_load]

end ShortPlay
